import Mathlib

/-!
Formal model of the chat backend (`src/backend/chat.js`, canonical version):
an in-memory message store with long-polling HTTP delivery and WebSocket
push delivery.  Shared mutable state (`messages`, `nextId`,
`callbacksForNewMessages`, `connections`) is modelled as an explicit
`ServerState`; observable effects (long-poll responses via `res.json`,
WebSocket sends via `conn.sendUTF`) are modelled as append-only event logs
inside the state.  `Date.now()` is modelled as an explicit `now : Nat`
argument (a non-decreasing wall-clock reading passed in by each event).
-/

namespace Chat

/-- A chat message, as constructed in `createMessage`:
`{ id, author, text, likes, dislikes, timestamp }`. -/
structure Message where
  id : Nat
  author : String
  text : String
  likes : Nat
  dislikes : Nat
  timestamp : Nat
deriving Repr, DecidableEq

/-- Global server state plus observation logs.

* `messages`, `nextId` — the store (`let messages = []; let nextId = 1`).
* `waiters` — `callbacksForNewMessages`, identified by opaque waiter ids,
  in array order (`push` appends at the end, `pop` removes from the end).
* `timers` — the waiter ids whose 30-second `setTimeout` is still armed
  (neither fired nor `clearTimeout`-ed).
* `connections` — the WebSocket connection registry, by opaque ids.
* `deliveries` — log of `res.json` calls on long-poll responses:
  `(waiterId, payload)` in the order they happened.
* `sends` — log of `conn.sendUTF(JSON.stringify({type, message}))` calls:
  `(connId, type, message)` in the order they happened. -/
structure ServerState where
  messages : List Message
  nextId : Nat
  waiters : List Nat
  timers : List Nat
  connections : List Nat
  deliveries : List (Nat × List Message)
  sends : List (Nat × String × Message)
deriving Repr, DecidableEq

/-- The initial state: empty store, `nextId = 1`, no waiters, no
connections, nothing observed yet. -/
def initState : ServerState :=
  { messages := [], nextId := 1, waiters := [], timers := [],
    connections := [], deliveries := [], sends := [] }

/-- Function `notifyLongPolling(newMessages)`: `while (callbacksForNewMessages.length > 0)
{ const cb = callbacksForNewMessages.pop(); cb(newMessages); }`.
Each popped callback runs `clearTimeout(timeout)` for its own timer and
then `res.json(newMessages)`.  `pop` takes from the end of the array, so
waiters are delivered to in reverse registration order, and afterwards the
registry is empty and every popped waiter's timer is disarmed. -/
def notifyLongPolling (newMessages : List Message) (s : ServerState) : ServerState :=
  { s with
    waiters := []
    timers := s.timers.filter (fun t => ¬ t ∈ s.waiters)
    deliveries := s.deliveries ++ s.waiters.reverse.map (fun w => (w, newMessages)) }

/-- Function `notifyWebSockets(type, message)`: `connections.forEach(conn =>
conn.sendUTF(JSON.stringify({ type, message })))` — one send per currently
registered connection, in registry order. -/
def notifyWebSockets (type : String) (message : Message) (s : ServerState) : ServerState :=
  { s with sends := s.sends ++ s.connections.map (fun c => (c, type, message)) }

/-- Function `createMessage(author, text)`: allocates `nextId++`, stamps
`Date.now()` (the `now` argument), appends to `messages`, then notifies
long-poll waiters with `[newMessage]` and broadcasts a `"message"`
envelope; returns the new message. -/
def createMessage (author text : String) (now : Nat) (s : ServerState) :
    Message × ServerState :=
  let newMessage : Message :=
    { id := s.nextId, author := author, text := text,
      likes := 0, dislikes := 0, timestamp := now }
  let s1 := { s with nextId := s.nextId + 1, messages := s.messages ++ [newMessage] }
  let s2 := notifyLongPolling [newMessage] s1
  let s3 := notifyWebSockets "message" newMessage s2
  (newMessage, s3)

/-- The per-message mutation of `handleReaction` on a found message:
`if (reaction === "like") message.likes++; if (reaction === "dislike")
message.dislikes++; message.timestamp = Date.now()`. -/
def applyReaction (reaction : String) (now : Nat) (m : Message) : Message :=
  let m1 := if reaction = "like" then { m with likes := m.likes + 1 } else m
  let m2 := if reaction = "dislike" then { m1 with dislikes := m1.dislikes + 1 } else m1
  { m2 with timestamp := now }

/-- In-place mutation of the object returned by `messages.find`: replace
the first element whose `id` matches (later duplicates, were they to
exist, are untouched). -/
def updateFirst (id : Nat) (f : Message → Message) : List Message → List Message
  | [] => []
  | m :: rest => if m.id = id then f m :: rest else m :: updateFirst id f rest

/-- Function `handleReaction(id, reaction)`: `messages.find(m => m.id === id)`;
if absent return `null` (no store change, no notification); if found,
mutate counters and timestamp in place, notify long-poll waiters with
`[message]`, broadcast an `"update"` envelope, and return the message. -/
def handleReaction (id : Nat) (reaction : String) (now : Nat) (s : ServerState) :
    Option Message × ServerState :=
  match s.messages.find? (fun m => m.id = id) with
  | none => (none, s)
  | some m =>
    let m' := applyReaction reaction now m
    let s1 := { s with messages := updateFirst id (fun _ => m') s.messages }
    let s2 := notifyLongPolling [m'] s1
    let s3 := notifyWebSockets "update" m' s2
    (some m', s3)

/-- The `since` query parameter of `GET /messages` after
`Number(req.query.since)`: missing (`Number(undefined)` is `NaN`),
unparsable (`NaN`), or a parsed non-negative integer. -/
inductive SinceParam where
  | absent
  | invalid
  | value (n : Nat)
deriving Repr, DecidableEq

/-- Expression `const messagesToSend = since ? messages.filter(m => m.timestamp > since)
: messages` — the filter applies only when `since` is truthy: `NaN` (missing
or unparsable) and `0` are falsy, so those requests see the full list. -/
def messagesToSend (since : SinceParam) (msgs : List Message) : List Message :=
  match since with
  | .value n => if n = 0 then msgs else msgs.filter (fun m => n < m.timestamp)
  | _ => msgs

/-- The `GET /messages` handler: compute `messagesToSend`; if non-empty,
respond immediately (returned as `some payload`, logged as a delivery to
this request's waiter id `w`); otherwise register the callback and arm the
30-second timeout (returned as `none`). -/
def getMessages (since : SinceParam) (w : Nat) (s : ServerState) :
    Option (List Message) × ServerState :=
  let toSend := messagesToSend since s.messages
  if toSend.isEmpty then
    (none, { s with waiters := s.waiters ++ [w], timers := s.timers ++ [w] })
  else
    (some toSend, { s with deliveries := s.deliveries ++ [(w, toSend)] })

/-- Expiry of a waiter's 30-second timeout: `setTimeout(() => {
res.json([]); }, 30000)`.  Fires only if the timer is still armed; the
handler responds with `[]` — and does nothing else: in particular the
callback stays in `callbacksForNewMessages`. -/
def timerFire (w : Nat) (s : ServerState) : ServerState :=
  if w ∈ s.timers then
    { s with timers := s.timers.erase w, deliveries := s.deliveries ++ [(w, [])] }
  else s

/-- Handler `app.post("/messages")`: validate `author`/`text` (JS falsiness of a
string field means the empty string here), 400 without touching state if
either is missing, otherwise delegate to `createMessage` and answer 201. -/
def httpPostMessages (author text : String) (now : Nat) (s : ServerState) :
    Nat × ServerState :=
  if author = "" ∨ text = "" then (400, s)
  else (201, (createMessage author text now s).2)

/-- A parsed WebSocket input frame, after the `JSON.parse` and
`data.type` dispatch in the `connection.on("message")` handler; `other`
covers non-UTF-8 frames, unparsable payloads and unknown types, all of
which the handler ignores. -/
inductive Frame where
  | message (author text : String)
  | like (id : Nat)
  | dislike (id : Nat)
  | other
deriving Repr, DecidableEq

/-- The canonical WebSocket `connection.on("message")` handler: a
`"message"` frame calls `createMessage(data.author, data.text)`, a
`"like"`/`"dislike"` frame calls `handleReaction(data.id, ...)`, anything
else is dropped. -/
def wsHandleFrame (f : Frame) (now : Nat) (s : ServerState) : ServerState :=
  match f with
  | .message a t => (createMessage a t now s).2
  | .like id => (handleReaction id "like" now s).2
  | .dislike id => (handleReaction id "dislike" now s).2
  | .other => s

/-- One externally triggered event on the server. -/
inductive Op where
  | create (author text : String) (now : Nat)
  | react (id : Nat) (reaction : String) (now : Nat)
  | pull (since : SinceParam) (w : Nat)
  | fire (w : Nat)
  | ws (f : Frame) (now : Nat)
deriving Repr, DecidableEq

/-- Apply one event to the state. -/
def step (s : ServerState) (op : Op) : ServerState :=
  match op with
  | .create a t now => (createMessage a t now s).2
  | .react id r now => (handleReaction id r now s).2
  | .pull since w => (getMessages since w s).2
  | .fire w => timerFire w s
  | .ws f now => wsHandleFrame f now s

/-- Run a sequence of events from a state. -/
def run (ops : List Op) (s : ServerState) : ServerState :=
  ops.foldl step s

/-- The clock reading an event passes to `Date.now()`-dependent code;
events that never read the clock are assigned `1` so that clock
hypotheses constrain only real readings. -/
def clock : Op → Nat
  | .create _ _ now => now
  | .react _ _ now => now
  | .ws _ now => now
  | .pull _ _ => 1
  | .fire _ => 1

/-- Outcome of one `conn.sendUTF` call.  The `websocket` library reports
send failures through the connection's own error/close events, not by
raising into the caller, so a failed send is a dropped frame, never an
exception inside `connections.forEach`. -/
inductive SendOutcome where
  | delivered
  | dropped
deriving Repr, DecidableEq

/-- One `conn.sendUTF` call under a failure assignment `fails` naming the
connections whose send fails. -/
def sendUTF (fails : Nat → Bool) (c : Nat) : SendOutcome :=
  if fails c then .dropped else .delivered

/-- Again `notifyWebSockets`, now with the per-connection send outcome made
explicit: `connections.forEach(conn => conn.sendUTF(...))` attempts one
send per registered connection, in order, whatever each attempt's
outcome. -/
def notifyWebSocketsSends (fails : Nat → Bool) (conns : List Nat)
    (type : String) (m : Message) : List (Nat × String × Message × SendOutcome) :=
  conns.map (fun c => (c, type, m, sendUTF fails c))

/-- Store invariant: message ids are strictly increasing in store order
and all sit below the `nextId` allocator. -/
def IdInv (s : ServerState) : Prop :=
  (s.messages.map Message.id).Pairwise (· < ·) ∧ ∀ m ∈ s.messages, m.id < s.nextId

/-- Store invariant: every stored timestamp is a positive clock reading
(`Date.now()` is always ≥ 1). -/
def TsInv (s : ServerState) : Prop :=
  ∀ m ∈ s.messages, 1 ≤ m.timestamp

/-- A successful `find?` splits the list at the first id match, and
`updateFirst` rewrites exactly that element. -/
theorem find?_decomp {l : List Message} {m : Message} {id : Nat}
    (h : l.find? (fun x => x.id = id) = some m) :
    ∃ pre post, l = pre ++ m :: post ∧ (∀ x ∈ pre, x.id ≠ id) ∧ m.id = id ∧
      ∀ f : Message → Message, updateFirst id f l = pre ++ f m :: post := by
  induction l with
  | nil => simp at h
  | cons m₀ rest ih =>
    by_cases h0 : m₀.id = id
    · have hm : m = m₀ := by
        rw [List.find?_cons_of_pos _ (by simpa using h0)] at h
        exact (Option.some.inj h).symm
      subst hm
      exact ⟨[], rest, rfl, by simp, h0, fun f => by simp [updateFirst, h0]⟩
    · rw [List.find?_cons_of_neg _ (by simpa using h0)] at h
      obtain ⟨pre, post, hl, hpre, hid, hupd⟩ := ih h
      refine ⟨m₀ :: pre, post, by simp [hl], ?_, hid, fun f => ?_⟩
      · intro x hx
        rcases List.mem_cons.mp hx with hx | hx
        · simpa [hx] using h0
        · exact hpre x hx
      · simp [updateFirst, h0, hupd f]

/-- Computing `applyReaction` on `"like"`. -/
theorem applyReaction_like (now : Nat) (m : Message) :
    applyReaction "like" now m = { m with likes := m.likes + 1, timestamp := now } := by
  simp [applyReaction]

/-- Computing `applyReaction` on `"dislike"`. -/
theorem applyReaction_dislike (now : Nat) (m : Message) :
    applyReaction "dislike" now m = { m with dislikes := m.dislikes + 1, timestamp := now } := by
  simp [applyReaction]

/-- Computing `applyReaction` on any other reaction string only refreshes the
timestamp. -/
theorem applyReaction_other {r : String} (now : Nat) (m : Message)
    (h1 : r ≠ "like") (h2 : r ≠ "dislike") :
    applyReaction r now m = { m with timestamp := now } := by
  simp [applyReaction, h1, h2]

/-- C3: for an id absent from the store, `handleReaction` returns the
not-found signal (`null`) and has no side effect at all: the store, the
waiter registry, the delivery log and the send log are all unchanged. -/
theorem handleReaction_missing_id_no_effect (id : Nat) (reaction : String)
    (now : Nat) (s : ServerState) (h : ∀ m ∈ s.messages, m.id ≠ id) :
    handleReaction id reaction now s = (none, s) := by
  have hf : s.messages.find? (fun x => x.id = id) = none := by
    rw [List.find?_eq_none]
    intro m hm
    simpa using h m hm
  simp [handleReaction, hf]

/-- Witness for C3: reacting to id 999 in a store holding only id 1. -/
theorem handleReaction_missing_id_no_effect_witness :
    (∀ m ∈ ((createMessage "Jane" "Hello" 5 initState).2).messages, m.id ≠ 999) ∧
    handleReaction 999 "like" 7 ((createMessage "Jane" "Hello" 5 initState).2) =
      (none, (createMessage "Jane" "Hello" 5 initState).2) :=
  ⟨by decide, handleReaction_missing_id_no_effect 999 "like" 7 _ (by decide)⟩

/-- C10: for an existing id and a reaction kind outside
`{like, dislike}`, `handleReaction` leaves both counters unchanged but
still refreshes the timestamp, empties the waiter registry delivering
`[message]` to every pending waiter, broadcasts an `update` envelope to
every connection, and returns the message rather than not-found. -/
theorem handleReaction_unknown_kind (id : Nat) (reaction : String) (now : Nat)
    (s : ServerState) (m : Message)
    (hm : s.messages.find? (fun x => x.id = id) = some m)
    (h1 : reaction ≠ "like") (h2 : reaction ≠ "dislike") :
    (handleReaction id reaction now s).1 = some { m with timestamp := now } ∧
    (handleReaction id reaction now s).2.waiters = [] ∧
    (handleReaction id reaction now s).2.deliveries =
      s.deliveries ++ s.waiters.reverse.map (fun w => (w, [{ m with timestamp := now }])) ∧
    (handleReaction id reaction now s).2.sends =
      s.sends ++ s.connections.map (fun c => (c, "update", { m with timestamp := now })) := by
  simp [handleReaction, hm, applyReaction_other now m h1 h2,
    notifyLongPolling, notifyWebSockets]

/-- Witness for C10: a `"boost"` reaction on message 1. -/
theorem handleReaction_unknown_kind_witness :
    (((createMessage "Jane" "Hello" 5 initState).2).messages.find? (fun x => x.id = 1) =
      some { id := 1, author := "Jane", text := "Hello", likes := 0, dislikes := 0,
             timestamp := 5 }) ∧
    ((handleReaction 1 "boost" 9 ((createMessage "Jane" "Hello" 5 initState).2)).1 =
      some { id := 1, author := "Jane", text := "Hello", likes := 0, dislikes := 0,
             timestamp := 9 } ∧
    (handleReaction 1 "boost" 9 ((createMessage "Jane" "Hello" 5 initState).2)).2.waiters = [] ∧
    (handleReaction 1 "boost" 9 ((createMessage "Jane" "Hello" 5 initState).2)).2.deliveries =
      ((createMessage "Jane" "Hello" 5 initState).2).deliveries ++
        ((createMessage "Jane" "Hello" 5 initState).2).waiters.reverse.map
          (fun w => (w, [{ id := 1, author := "Jane", text := "Hello", likes := 0,
                           dislikes := 0, timestamp := 9 }])) ∧
    (handleReaction 1 "boost" 9 ((createMessage "Jane" "Hello" 5 initState).2)).2.sends =
      ((createMessage "Jane" "Hello" 5 initState).2).sends ++
        ((createMessage "Jane" "Hello" 5 initState).2).connections.map
          (fun c => (c, "update", { id := 1, author := "Jane", text := "Hello", likes := 0,
                                    dislikes := 0, timestamp := 9 }))) :=
  ⟨by decide,
   handleReaction_unknown_kind 1 "boost" 9 _
     { id := 1, author := "Jane", text := "Hello", likes := 0, dislikes := 0,
       timestamp := 5 }
     (by decide) (by decide) (by decide)⟩

/-- C1 (failing run): a waiter whose 30-second timeout has fired stays in
`callbacksForNewMessages`, so the next `notifyLongPolling` (here: a
create) delivers to it a second time — the delivery log shows waiter 7
answered twice, once with `[]` and once with the new message. -/
theorem timedOut_waiter_delivered_again :
    (run [.pull .absent 7, .fire 7] initState).waiters = [7] ∧
    (run [.pull .absent 7, .fire 7, .create "A" "B" 5] initState).deliveries =
      [(7, []),
       (7, [{ id := 1, author := "A", text := "B", likes := 0, dislikes := 0,
              timestamp := 5 }])] := by
  decide

/-- C6 (counterexample): a message created at clock reading 5 and liked
at the same clock reading (`Date.now()` has millisecond resolution, so
two calls can return the same value) keeps timestamp 5 — not strictly
greater than the creation timestamp — and a pull with `since = 5` misses
the updated message. -/
theorem reaction_same_tick_misses_pull :
    (createMessage "Jane" "Hello" 5 initState).1.timestamp = 5 ∧
    ((handleReaction 1 "like" 5 (createMessage "Jane" "Hello" 5 initState).2).1.map
      Message.timestamp) = some 5 ∧
    ¬ (∃ m', (handleReaction 1 "like" 5
          (createMessage "Jane" "Hello" 5 initState).2).1 = some m' ∧
        (createMessage "Jane" "Hello" 5 initState).1.timestamp < m'.timestamp) ∧
    messagesToSend (.value 5)
      ((handleReaction 1 "like" 5
        (createMessage "Jane" "Hello" 5 initState).2).2).messages = [] := by
  refine ⟨rfl, rfl, ?_, rfl⟩
  rintro ⟨m', hm', hlt⟩
  cases Option.some.inj hm'
  exact absurd hlt (by decide)

/-- C6 (amended): a successful reaction restamps the message with the
reaction-time clock reading, so its timestamp never decreases; whenever
the clock has strictly advanced past the message's current timestamp, the
new timestamp is strictly greater and a pull with `since` equal to the
old timestamp returns the updated message. -/
theorem handleReaction_timestamp_nondecreasing (id : Nat) (reaction : String)
    (now : Nat) (s : ServerState) (m : Message)
    (hm : s.messages.find? (fun x => x.id = id) = some m)
    (hle : m.timestamp ≤ now) :
    ∃ m', (handleReaction id reaction now s).1 = some m' ∧
      m.timestamp ≤ m'.timestamp ∧
      (m.timestamp < now →
        m.timestamp < m'.timestamp ∧
        m' ∈ messagesToSend (.value m.timestamp)
          (handleReaction id reaction now s).2.messages) := by
  obtain ⟨pre, post, hl, hpre, hid, hupd⟩ := find?_decomp hm
  have hts : (applyReaction reaction now m).timestamp = now := by
    simp [applyReaction]
  refine ⟨applyReaction reaction now m, ?_, ?_, ?_⟩
  · simp [handleReaction, hm]
  · rw [hts]; exact hle
  · intro hlt
    have hmsgs : (handleReaction id reaction now s).2.messages =
        pre ++ applyReaction reaction now m :: post := by
      simp [handleReaction, hm, notifyLongPolling, notifyWebSockets, hupd]
    have hmem : applyReaction reaction now m ∈
        (handleReaction id reaction now s).2.messages := by
      rw [hmsgs]; simp
    refine ⟨by rw [hts]; exact hlt, ?_⟩
    by_cases h0 : m.timestamp = 0
    · simpa [messagesToSend, h0] using hmem
    · simp [messagesToSend, h0, List.mem_filter, hts]
      exact ⟨hmem, hlt⟩

/-- Witness for the amended C6: creation at clock 5, like at clock 9. -/
theorem handleReaction_timestamp_nondecreasing_witness :
    (((createMessage "Jane" "Hello" 5 initState).2).messages.find? (fun x => x.id = 1) =
      some { id := 1, author := "Jane", text := "Hello", likes := 0, dislikes := 0,
             timestamp := 5 }) ∧
    (∃ m', (handleReaction 1 "like" 9 ((createMessage "Jane" "Hello" 5 initState).2)).1 =
        some m' ∧
      5 ≤ m'.timestamp ∧
      ((5 : Nat) < 9 →
        5 < m'.timestamp ∧
        m' ∈ messagesToSend (.value 5)
          (handleReaction 1 "like" 9
            ((createMessage "Jane" "Hello" 5 initState).2)).2.messages)) :=
  ⟨by decide,
   handleReaction_timestamp_nondecreasing 1 "like" 9 _
     { id := 1, author := "Jane", text := "Hello", likes := 0, dislikes := 0,
       timestamp := 5 }
     (by decide) (by decide)⟩

/-- C5: on a message present in the store, a `like` increments `likes` by
exactly one leaving `dislikes` untouched, and a `dislike` increments
`dislikes` by exactly one leaving `likes` untouched; id, author and text
are preserved and every other stored message is untouched (the store
around the first id match is returned verbatim). -/
theorem handleReaction_like_dislike_counters (id : Nat) (now : Nat)
    (s : ServerState) (m : Message)
    (hm : s.messages.find? (fun x => x.id = id) = some m) :
    ∃ pre post,
      s.messages = pre ++ m :: post ∧ (∀ x ∈ pre, x.id ≠ id) ∧
      (handleReaction id "like" now s).1 =
        some { m with likes := m.likes + 1, timestamp := now } ∧
      (handleReaction id "like" now s).2.messages =
        pre ++ { m with likes := m.likes + 1, timestamp := now } :: post ∧
      (handleReaction id "dislike" now s).1 =
        some { m with dislikes := m.dislikes + 1, timestamp := now } ∧
      (handleReaction id "dislike" now s).2.messages =
        pre ++ { m with dislikes := m.dislikes + 1, timestamp := now } :: post := by
  obtain ⟨pre, post, hl, hpre, hid, hupd⟩ := find?_decomp hm
  refine ⟨pre, post, hl, hpre, ?_, ?_, ?_, ?_⟩
  · simp [handleReaction, hm, applyReaction_like]
  · simp [handleReaction, hm, notifyLongPolling, notifyWebSockets, hupd,
      applyReaction_like]
  · simp [handleReaction, hm, applyReaction_dislike]
  · simp [handleReaction, hm, notifyLongPolling, notifyWebSockets, hupd,
      applyReaction_dislike]

/-- Witness for C5: like and dislike on the single stored message. -/
theorem handleReaction_like_dislike_counters_witness :
    (((createMessage "Jane" "Hello" 5 initState).2).messages.find? (fun x => x.id = 1) =
      some { id := 1, author := "Jane", text := "Hello", likes := 0, dislikes := 0,
             timestamp := 5 }) ∧
    (∃ pre post,
      ((createMessage "Jane" "Hello" 5 initState).2).messages =
        pre ++ { id := 1, author := "Jane", text := "Hello", likes := 0, dislikes := 0,
                 timestamp := 5 } :: post ∧
      (∀ x ∈ pre, x.id ≠ 1) ∧
      (handleReaction 1 "like" 9 ((createMessage "Jane" "Hello" 5 initState).2)).1 =
        some { id := 1, author := "Jane", text := "Hello", likes := 1, dislikes := 0,
               timestamp := 9 } ∧
      (handleReaction 1 "like" 9 ((createMessage "Jane" "Hello" 5 initState).2)).2.messages =
        pre ++ { id := 1, author := "Jane", text := "Hello", likes := 1, dislikes := 0,
                 timestamp := 9 } :: post ∧
      (handleReaction 1 "dislike" 9 ((createMessage "Jane" "Hello" 5 initState).2)).1 =
        some { id := 1, author := "Jane", text := "Hello", likes := 0, dislikes := 1,
               timestamp := 9 } ∧
      (handleReaction 1 "dislike" 9
          ((createMessage "Jane" "Hello" 5 initState).2)).2.messages =
        pre ++ { id := 1, author := "Jane", text := "Hello", likes := 0, dislikes := 1,
                 timestamp := 9 } :: post) :=
  ⟨by decide,
   handleReaction_like_dislike_counters 1 9 _
     { id := 1, author := "Jane", text := "Hello", likes := 0, dislikes := 0,
       timestamp := 5 }
     (by decide)⟩

/-- C9: a pull whose `since` is missing, unparsable (`NaN`) or `0` is
treated as having no `since` at all — `Number(...)` yields a falsy value,
so the filter is never applied with `NaN` or `0`.  With a non-empty store
such a request answers immediately with the full list and registers no
waiter (it cannot hang). -/
theorem getMessages_malformed_since_full_list (w : Nat) (s : ServerState)
    (h : s.messages ≠ []) :
    (getMessages .absent w s).1 = some s.messages ∧
    (getMessages .invalid w s).1 = some s.messages ∧
    (getMessages (.value 0) w s).1 = some s.messages ∧
    (getMessages .absent w s).2.waiters = s.waiters ∧
    (getMessages .invalid w s).2.waiters = s.waiters ∧
    (getMessages (.value 0) w s).2.waiters = s.waiters := by
  match hs : s.messages with
  | [] => exact absurd hs h
  | m :: rest => simp [getMessages, messagesToSend, hs]

/-- Witness for C9: the three malformed `since` shapes against a store
holding one message. -/
theorem getMessages_malformed_since_full_list_witness :
    (((createMessage "Jane" "Hello" 5 initState).2).messages ≠ []) ∧
    ((getMessages .absent 7 ((createMessage "Jane" "Hello" 5 initState).2)).1 =
      some ((createMessage "Jane" "Hello" 5 initState).2).messages ∧
    (getMessages .invalid 7 ((createMessage "Jane" "Hello" 5 initState).2)).1 =
      some ((createMessage "Jane" "Hello" 5 initState).2).messages ∧
    (getMessages (.value 0) 7 ((createMessage "Jane" "Hello" 5 initState).2)).1 =
      some ((createMessage "Jane" "Hello" 5 initState).2).messages ∧
    (getMessages .absent 7 ((createMessage "Jane" "Hello" 5 initState).2)).2.waiters =
      ((createMessage "Jane" "Hello" 5 initState).2).waiters ∧
    (getMessages .invalid 7 ((createMessage "Jane" "Hello" 5 initState).2)).2.waiters =
      ((createMessage "Jane" "Hello" 5 initState).2).waiters ∧
    (getMessages (.value 0) 7 ((createMessage "Jane" "Hello" 5 initState).2)).2.waiters =
      ((createMessage "Jane" "Hello" 5 initState).2).waiters) :=
  ⟨by decide, getMessages_malformed_since_full_list 7 _ (by decide)⟩

/-- Fact: `applyReaction` never changes the id. -/
theorem applyReaction_id (r : String) (now : Nat) (m : Message) :
    (applyReaction r now m).id = m.id := by
  by_cases h1 : r = "like" <;> by_cases h2 : r = "dislike" <;>
    simp [applyReaction, h1, h2]

/-- Fact: `createMessage` appends exactly one message carrying the allocator
value and bumps the allocator. -/
theorem createMessage_state (a t : String) (now : Nat) (s : ServerState) :
    (createMessage a t now s).2.messages = s.messages ++ [(createMessage a t now s).1] ∧
    (createMessage a t now s).2.nextId = s.nextId + 1 ∧
    (createMessage a t now s).1.id = s.nextId ∧
    (createMessage a t now s).1.timestamp = now :=
  ⟨rfl, rfl, rfl, rfl⟩

/-- Fact: `GET /messages` never touches the store or the allocator. -/
theorem getMessages_store_unchanged (p : SinceParam) (w : Nat) (s : ServerState) :
    ((getMessages p w s).2).messages = s.messages ∧
    ((getMessages p w s).2).nextId = s.nextId := by
  cases hE : (messagesToSend p s.messages).isEmpty <;> simp [getMessages, hE]

/-- A firing long-poll timeout never touches the store or the
allocator. -/
theorem timerFire_store_unchanged (w : Nat) (s : ServerState) :
    (timerFire w s).messages = s.messages ∧ (timerFire w s).nextId = s.nextId := by
  by_cases hw : w ∈ s.timers <;> simp [timerFire, hw]

/-- Fact: `handleReaction` preserves the list of ids and the allocator. -/
theorem handleReaction_ids_unchanged (id : Nat) (r : String) (now : Nat)
    (s : ServerState) :
    (handleReaction id r now s).2.messages.map Message.id =
      s.messages.map Message.id ∧
    (handleReaction id r now s).2.nextId = s.nextId := by
  cases hf : s.messages.find? (fun x => x.id = id) with
  | none => simp [handleReaction, hf]
  | some m =>
    obtain ⟨pre, post, hl, hpre, hid, hupd⟩ := find?_decomp hf
    constructor
    · have hmsgs : (handleReaction id r now s).2.messages =
          pre ++ applyReaction r now m :: post := by
        simp [handleReaction, hf, notifyLongPolling, notifyWebSockets, hupd]
      rw [hmsgs, hl]
      simp [applyReaction_id]
    · simp [handleReaction, hf, notifyLongPolling, notifyWebSockets]

/-- The id invariant survives a create. -/
theorem IdInv_createMessage (a t : String) (now : Nat) (s : ServerState)
    (h : IdInv s) : IdInv (createMessage a t now s).2 := by
  obtain ⟨h1, h2⟩ := h
  obtain ⟨hm, hn, hi, -⟩ := createMessage_state a t now s
  constructor
  · rw [hm, List.map_append, List.pairwise_append]
    refine ⟨h1, by simp, ?_⟩
    intro x hx y hy
    simp [hi] at hy
    subst hy
    obtain ⟨mm, hmm, rfl⟩ := List.mem_map.mp hx
    exact h2 mm hmm
  · intro m hmem
    rw [hm] at hmem
    rw [hn]
    rcases List.mem_append.mp hmem with hmem | hmem
    · exact Nat.lt_succ_of_lt (h2 m hmem)
    · simp at hmem
      subst hmem
      rw [hi]
      exact Nat.lt_succ_self _

/-- The id invariant survives a reaction. -/
theorem IdInv_handleReaction (id : Nat) (r : String) (now : Nat)
    (s : ServerState) (h : IdInv s) : IdInv (handleReaction id r now s).2 := by
  obtain ⟨h1, h2⟩ := h
  obtain ⟨hids, hn⟩ := handleReaction_ids_unchanged id r now s
  constructor
  · rw [hids]; exact h1
  · intro m hmem
    rw [hn]
    have : m.id ∈ (handleReaction id r now s).2.messages.map Message.id :=
      List.mem_map.mpr ⟨m, hmem, rfl⟩
    rw [hids] at this
    obtain ⟨m0, hm0, hEq⟩ := List.mem_map.mp this
    rw [← hEq]
    exact h2 m0 hm0

/-- The id invariant survives any single event. -/
theorem IdInv_step (s : ServerState) (op : Op) (h : IdInv s) : IdInv (step s op) := by
  cases op with
  | create a t now => exact IdInv_createMessage a t now s h
  | react id r now => exact IdInv_handleReaction id r now s h
  | pull p w =>
    obtain ⟨hmsg, hnext⟩ := getMessages_store_unchanged p w s
    exact ⟨by rw [show (step s (.pull p w)).messages = s.messages from hmsg]; exact h.1,
      fun m hm => by
        rw [show (step s (.pull p w)).messages = s.messages from hmsg] at hm
        rw [show (step s (.pull p w)).nextId = s.nextId from hnext]
        exact h.2 m hm⟩
  | fire w =>
    obtain ⟨hmsg, hnext⟩ := timerFire_store_unchanged w s
    exact ⟨by rw [show (step s (.fire w)).messages = s.messages from hmsg]; exact h.1,
      fun m hm => by
        rw [show (step s (.fire w)).messages = s.messages from hmsg] at hm
        rw [show (step s (.fire w)).nextId = s.nextId from hnext]
        exact h.2 m hm⟩
  | ws f now =>
    cases f with
    | message a t => exact IdInv_createMessage a t now s h
    | like id => exact IdInv_handleReaction id "like" now s h
    | dislike id => exact IdInv_handleReaction id "dislike" now s h
    | other => exact h

/-- The id invariant survives any run. -/
theorem IdInv_run (ops : List Op) (s : ServerState) (h : IdInv s) :
    IdInv (run ops s) := by
  induction ops generalizing s with
  | nil => exact h
  | cons op rest ih => exact ih (step s op) (IdInv_step s op h)

/-- C7: over every sequence of events starting from the initial state,
the ids of the stored messages (store order is creation order, since the
store is append-only) are pairwise strictly increasing — hence unique —
and every id sits strictly below the allocator, so no id is ever handed
out twice. -/
theorem run_ids_strictly_increasing (ops : List Op) :
    ((run ops initState).messages.map Message.id).Pairwise (· < ·) ∧
    ∀ m ∈ (run ops initState).messages, m.id < (run ops initState).nextId :=
  IdInv_run ops initState ⟨by simp [initState], by simp [initState]⟩

/-- Positive timestamps survive a create with a positive clock reading. -/
theorem TsInv_createMessage (a t : String) (now : Nat) (s : ServerState)
    (hc : 1 ≤ now) (h : TsInv s) : TsInv (createMessage a t now s).2 := by
  intro m hm
  obtain ⟨hmsg, -, -, hts⟩ := createMessage_state a t now s
  rw [hmsg] at hm
  rcases List.mem_append.mp hm with hm | hm
  · exact h m hm
  · simp at hm
    subst hm
    rw [hts]
    exact hc

/-- Positive timestamps survive a reaction with a positive clock
reading. -/
theorem TsInv_handleReaction (id : Nat) (r : String) (now : Nat)
    (s : ServerState) (hc : 1 ≤ now) (h : TsInv s) :
    TsInv (handleReaction id r now s).2 := by
  cases hf : s.messages.find? (fun x => x.id = id) with
  | none =>
    intro m hm
    simp [handleReaction, hf] at hm
    exact h m hm
  | some m0 =>
    obtain ⟨pre, post, hl, hpre, hid, hupd⟩ := find?_decomp hf
    have hmsgs : (handleReaction id r now s).2.messages =
        pre ++ applyReaction r now m0 :: post := by
      simp [handleReaction, hf, notifyLongPolling, notifyWebSockets, hupd]
    intro m hm
    rw [hmsgs] at hm
    rcases List.mem_append.mp hm with hm | hm
    · exact h m (hl ▸ List.mem_append.mpr (.inl hm))
    · rcases List.mem_cons.mp hm with rfl | hm
      · have : (applyReaction r now m0).timestamp = now := by simp [applyReaction]
        rw [this]
        exact hc
      · exact h m (hl ▸ by simp [hm])

/-- Positive timestamps survive any single event whose clock reading is
positive. -/
theorem TsInv_step (s : ServerState) (op : Op) (hc : 1 ≤ clock op)
    (h : TsInv s) : TsInv (step s op) := by
  cases op with
  | create a t now => exact TsInv_createMessage a t now s hc h
  | react id r now => exact TsInv_handleReaction id r now s hc h
  | pull p w =>
    intro m hm
    rw [show (step s (.pull p w)).messages = s.messages from
      (getMessages_store_unchanged p w s).1] at hm
    exact h m hm
  | fire w =>
    intro m hm
    rw [show (step s (.fire w)).messages = s.messages from
      (timerFire_store_unchanged w s).1] at hm
    exact h m hm
  | ws f now =>
    cases f with
    | message a t => exact TsInv_createMessage a t now s hc h
    | like id => exact TsInv_handleReaction id "like" now s hc h
    | dislike id => exact TsInv_handleReaction id "dislike" now s hc h
    | other => exact h

/-- Positive timestamps survive any run with positive clock readings. -/
theorem TsInv_run (ops : List Op) (hc : ∀ op ∈ ops, 1 ≤ clock op)
    (s : ServerState) (h : TsInv s) : TsInv (run ops s) := by
  induction ops generalizing s with
  | nil => exact h
  | cons op rest ih =>
    exact ih (fun o ho => hc o (List.mem_cons_of_mem op ho)) (step s op)
      (TsInv_step s op (hc op (List.mem_cons_self op rest)) h)

/-- C4: in every state the server can reach with genuine clock readings
(`Date.now() ≥ 1`), a pull carrying `since = t` returns exactly the
stored messages with timestamp strictly greater than `t`, in store order,
and a pull with no `since` returns the entire list.  (For `t = 0` the
code skips the filter — `0` is falsy — but with all stored timestamps
positive the unfiltered list coincides with the filtered one.) -/
theorem pull_since_filter (ops : List Op) (hc : ∀ op ∈ ops, 1 ≤ clock op)
    (t : Nat) :
    messagesToSend (.value t) (run ops initState).messages =
      (run ops initState).messages.filter (fun m => t < m.timestamp) ∧
    messagesToSend .absent (run ops initState).messages =
      (run ops initState).messages := by
  have hts : TsInv (run ops initState) :=
    TsInv_run ops hc initState (by intro m hm; simp [initState] at hm)
  refine ⟨?_, rfl⟩
  by_cases ht : t = 0
  · subst ht
    rw [show messagesToSend (.value 0) (run ops initState).messages =
        (run ops initState).messages from rfl]
    rw [eq_comm, List.filter_eq_self]
    intro m hm
    have h1 := hts m hm
    simp
    omega
  · simp [messagesToSend, ht]

/-- Witness for C4: one create at clock 5, pulled with `since = 0` and
with no `since`. -/
theorem pull_since_filter_witness :
    (∀ op ∈ [Op.create "Jane" "Hello" 5], 1 ≤ clock op) ∧
    (messagesToSend (.value 0) (run [Op.create "Jane" "Hello" 5] initState).messages =
      (run [Op.create "Jane" "Hello" 5] initState).messages.filter
        (fun m => 0 < m.timestamp) ∧
    messagesToSend .absent (run [Op.create "Jane" "Hello" 5] initState).messages =
      (run [Op.create "Jane" "Hello" 5] initState).messages) :=
  ⟨by decide, pull_since_filter [Op.create "Jane" "Hello" 5] (by decide) 0⟩

/-- C2: a create-message frame on the WebSocket transport routes through
the same `createMessage` as `POST /messages`, so on validation-passing
input (JS falsiness of a string field means the empty string) the two
transports produce the identical resulting state — identical store
append, identical long-poll fan-out (every pending waiter delivered
`[newMessage]`, registry emptied) and identical `"message"` envelope
broadcast to every connection. -/
theorem wsCreate_eq_httpPost (author text : String) (now : Nat) (s : ServerState)
    (ha : author ≠ "") (ht : text ≠ "") :
    wsHandleFrame (.message author text) now s =
      (httpPostMessages author text now s).2 ∧
    (httpPostMessages author text now s).1 = 201 ∧
    (wsHandleFrame (.message author text) now s).messages =
      s.messages ++ [(createMessage author text now s).1] ∧
    (wsHandleFrame (.message author text) now s).waiters = [] ∧
    (wsHandleFrame (.message author text) now s).deliveries =
      s.deliveries ++
        s.waiters.reverse.map (fun w => (w, [(createMessage author text now s).1])) ∧
    (wsHandleFrame (.message author text) now s).sends =
      s.sends ++
        s.connections.map (fun c => (c, "message", (createMessage author text now s).1)) := by
  refine ⟨?_, ?_, rfl, rfl, rfl, rfl⟩
  · simp [wsHandleFrame, httpPostMessages, ha, ht]
  · simp [httpPostMessages, ha, ht]

/-- Witness for C2: the frame `{type: "message", author: "Jane", text:
"Hi"}` against the empty initial state. -/
theorem wsCreate_eq_httpPost_witness :
    (("Jane" : String) ≠ "" ∧ ("Hi" : String) ≠ "") ∧
    (wsHandleFrame (.message "Jane" "Hi") 5 initState =
      (httpPostMessages "Jane" "Hi" 5 initState).2 ∧
    (httpPostMessages "Jane" "Hi" 5 initState).1 = 201 ∧
    (wsHandleFrame (.message "Jane" "Hi") 5 initState).messages =
      initState.messages ++ [(createMessage "Jane" "Hi" 5 initState).1] ∧
    (wsHandleFrame (.message "Jane" "Hi") 5 initState).waiters = [] ∧
    (wsHandleFrame (.message "Jane" "Hi") 5 initState).deliveries =
      initState.deliveries ++
        initState.waiters.reverse.map
          (fun w => (w, [(createMessage "Jane" "Hi" 5 initState).1])) ∧
    (wsHandleFrame (.message "Jane" "Hi") 5 initState).sends =
      initState.sends ++
        initState.connections.map
          (fun c => (c, "message", (createMessage "Jane" "Hi" 5 initState).1))) :=
  ⟨⟨by decide, by decide⟩,
   wsCreate_eq_httpPost "Jane" "Hi" 5 initState (by decide) (by decide)⟩

/-- C8: the broadcaster attempts one send per connection registered at
call time, whatever failure assignment the sends encounter: a failing
connection never suppresses the attempt to any other connection, and the
broadcast returns normally (the `websocket` library surfaces send
failures through the connection's own error/close events, never by
raising into `connections.forEach`). -/
theorem broadcast_isolates_send_failures (fails : Nat → Bool) (conns : List Nat)
    (type : String) (m : Message) (c : Nat) (hc : c ∈ conns) :
    (c, type, m, sendUTF fails c) ∈ notifyWebSocketsSends fails conns type m ∧
    (notifyWebSocketsSends fails conns type m).map (fun e => e.1) = conns := by
  constructor
  · exact List.mem_map.mpr ⟨c, hc, rfl⟩
  · simp only [notifyWebSocketsSends, List.map_map]
    exact List.map_id conns

/-- Witness for C8: two connections, the send to connection 1 fails,
connection 2 still receives its envelope. -/
theorem broadcast_isolates_send_failures_witness :
    ((2 : Nat) ∈ [1, 2]) ∧
    ((2, "message",
        ({ id := 1, author := "Jane", text := "Hi", likes := 0, dislikes := 0,
           timestamp := 5 } : Message),
        sendUTF (fun c => c == 1) 2) ∈
      notifyWebSocketsSends (fun c => c == 1) [1, 2] "message"
        { id := 1, author := "Jane", text := "Hi", likes := 0, dislikes := 0,
          timestamp := 5 } ∧
    (notifyWebSocketsSends (fun c => c == 1) [1, 2] "message"
        { id := 1, author := "Jane", text := "Hi", likes := 0, dislikes := 0,
          timestamp := 5 }).map (fun e => e.1) = [1, 2]) :=
  ⟨by decide,
   broadcast_isolates_send_failures (fun c => c == 1) [1, 2] "message"
     { id := 1, author := "Jane", text := "Hi", likes := 0, dislikes := 0,
       timestamp := 5 }
     2 (by decide)⟩

end Chat
